import Mathlib

/-!
Shallow embedding of `src/CCDB/read_encoded_flags.C` (repository RCTutils).

The routine `read_encoded_flags(run, passName, periodName, versionNumber, ccdbPath)`
loads a dictionary module, asks the CCDB manager for the run's start/end
timestamps, computes the uint64 midpoint, builds a `std::map<std::string,std::string>`
metadata filter, retrieves a `std::map<uint64_t, uint32_t>` of encoded flags and
prints each entry.  External collaborators (`gSystem->Load`, `getRunDuration`,
`getSpecific`) are modelled by a `Store` record giving each call's outcome; the
observable behaviour is an `ExecTrace`: the stdout lines, the stderr lines, the
sequence of store calls made, and an uncaught exception if one propagates.
Machine integers are modelled as `Nat` with explicit reduction modulo `2 ^ 64`
where the C++ uint64 arithmetic can wrap.
-/

namespace RCT

/-- Modulus of C++ `uint64_t` arithmetic. -/
def UINT64_MOD : Nat := 2 ^ 64

/-- Line 21 of the source: `uint64_t ts = (soreor.first + soreor.second) / 2`.
The addition is performed in `uint64_t`, hence wraps modulo `2 ^ 64` before the
exact division by 2. -/
def midTimestamp (s e : Nat) : Nat := ((s + e) % UINT64_MOD) / 2

/-- Semantics of `std::map<std::string,std::string>::operator[]` followed by
assignment: insert the key into the association list kept strictly sorted by
`std::less<std::string>` (lexicographic character order), replacing the value
if the key is already present. -/
def mapInsert (k v : String) : List (String × String) → List (String × String)
  | [] => [(k, v)]
  | (k₁, v₁) :: rest =>
    if k.data < k₁.data then (k, v) :: (k₁, v₁) :: rest
    else if k = k₁ then (k, v) :: rest
    else (k₁, v₁) :: mapInsert k v rest

/-- Lines 24-28 of the source: the metadata filter built by the four
`metadata[...] = ...` assignments (insertion order: run, passName, periodName,
version; the map itself is ordered by key). -/
def metadataOf (run : Int) (passName periodName : String) (versionNumber : Int) :
    List (String × String) :=
  mapInsert "version" (toString versionNumber)
    (mapInsert "periodName" periodName
      (mapInsert "passName" passName
        (mapInsert "run" (toString run) [])))

/-- Characters printed by `std::bitset<w>(v)`: bit `w-1` first, down to bit 0. -/
def bitsetChars : Nat → Nat → List Char
  | 0, _ => []
  | n + 1, v => (if v / 2 ^ n % 2 = 1 then '1' else '0') :: bitsetChars n v

/-- `std::bitset<32>(bitmask)` as printed by `operator<<`. -/
def bitset32 (v : Nat) : String := ⟨bitsetChars 32 v⟩

/-- Numeric value of a most-significant-bit-first binary character string. -/
def binVal : List Char → Nat
  | [] => 0
  | c :: rest => (if c = '1' then 1 else 0) * 2 ^ rest.length + binVal rest

/-- Line 43-44 of the source: one printed flag entry. -/
def flagLine (timestamp bitmask : Nat) : String :=
  "  Timestamp: " ++ toString timestamp ++ ", Bitmask: " ++ bitset32 bitmask
    ++ " (" ++ toString bitmask ++ ")"

/-- Line 41 of the source: the success-path header naming the run. -/
def headerLine (run : Int) : String := "Encoded Flags for Run " ++ toString run ++ ":"

/-- Default value of the `ccdbPath` parameter. -/
def defaultCcdbPath : String := "Users/j/jian/RCT"

/-- A call made on the external CCDB manager, with its arguments. -/
inductive StoreCall where
  | runDurationCall (run : Int)
  | getSpecificCall (path : String) (timestamp : Nat) (md : List (String × String))
  deriving DecidableEq, Repr

/-- Modelled from the spec: the external collaborators
(`o2::ccdb::BasicCCDBManager` and `gSystem`, whose headers are not part of the
repository) are represented by the outcome each call yields in one invocation:
the return value of `gSystem->Load("dict_ccdb.so")`, the outcome of
`getRunDuration(run)` (per the spec's RunTimeWindow a pair of uint64
timestamps, or a raised exception with its message), and the outcome of
`getSpecific` (a raised exception, a null pointer, or the retrieved ordered
map). -/
structure Store where
  loadDict : Int
  runDuration : Except String (Nat × Nat)
  getSpecific : Except String (Option (List (Nat × Nat)))

/-- Observable behaviour of one invocation: stdout lines, stderr lines, the
store calls made in order, and `some msg` when an exception escapes uncaught. -/
structure ExecTrace where
  stdout : List String
  stderr : List String
  calls : List StoreCall
  uncaught : Option String
  deriving DecidableEq, Repr

/-- The routine of `src/CCDB/read_encoded_flags.C`, line by line:
dictionary load check (lines 11-14), `getRunDuration` outside the try block
(line 20), midpoint timestamp (line 21), metadata filter (lines 24-28), then
inside the try block the `getSpecific` call (line 32), the null check
(lines 35-38), the printing loop (lines 41-45) and the catch-all handler for
`std::exception` (lines 46-48). -/
def read_encoded_flags (store : Store) (run : Int) (passName periodName : String)
    (versionNumber : Int) (ccdbPath : String) : ExecTrace :=
  if store.loadDict < 0 then
    { stdout := [], stderr := ["Error: Failed to load dict_ccdb.so"],
      calls := [], uncaught := none }
  else
    match store.runDuration with
    | .error msg =>
      { stdout := [], stderr := [], calls := [.runDurationCall run], uncaught := some msg }
    | .ok soreor =>
      let ts := midTimestamp soreor.1 soreor.2
      let md := metadataOf run passName periodName versionNumber
      let calls := [StoreCall.runDurationCall run, StoreCall.getSpecificCall ccdbPath ts md]
      match store.getSpecific with
      | .error msg =>
        { stdout := [],
          stderr := ["Error: Exception occurred while retrieving CCDB object: " ++ msg],
          calls := calls, uncaught := none }
      | .ok none =>
        { stdout := [],
          stderr := ["Error: Unable to retrieve encoded flags for run " ++ toString run
            ++ " from CCDB."],
          calls := calls, uncaught := none }
      | .ok (some encodedFlags) =>
        { stdout := headerLine run :: encodedFlags.map (fun p => flagLine p.1 p.2),
          stderr := [], calls := calls, uncaught := none }

/-! Basic facts about the embedded pieces, shared by the claim theorems. -/

/-- Closed form of the metadata filter: the four assignments of lines 24-28
produce exactly the four keys, ordered by `std::less`, with the two integer
inputs converted to decimal strings and the two string inputs kept verbatim. -/
theorem metadataOf_eq (run : Int) (pn per : String) (v : Int) :
    metadataOf run pn per v
      = [("passName", pn), ("periodName", per),
         ("run", toString run), ("version", toString v)] := rfl

/-- Trace of the dictionary-load failure branch (lines 11-14). -/
theorem read_load_failure (store : Store) (run : Int) (pn per : String) (v : Int)
    (path : String) (h : store.loadDict < 0) :
    read_encoded_flags store run pn per v path =
      { stdout := [], stderr := ["Error: Failed to load dict_ccdb.so"],
        calls := [], uncaught := none } := by
  unfold read_encoded_flags
  rw [if_pos h]

/-- Trace when `getRunDuration` (line 20, outside the try block) raises. -/
theorem read_duration_exn (store : Store) (run : Int) (pn per : String) (v : Int)
    (path msg : String) (hl : 0 ≤ store.loadDict)
    (hd : store.runDuration = .error msg) :
    read_encoded_flags store run pn per v path =
      { stdout := [], stderr := [], calls := [.runDurationCall run],
        uncaught := some msg } := by
  unfold read_encoded_flags
  rw [if_neg (by omega), hd]

/-- Trace when `getSpecific` (line 32) raises and the handler of lines 46-48
catches. -/
theorem read_store_exn (store : Store) (run : Int) (pn per : String) (v : Int)
    (path : String) (s e : Nat) (msg : String) (hl : 0 ≤ store.loadDict)
    (hd : store.runDuration = .ok (s, e)) (hg : store.getSpecific = .error msg) :
    read_encoded_flags store run pn per v path =
      { stdout := [],
        stderr := ["Error: Exception occurred while retrieving CCDB object: " ++ msg],
        calls := [.runDurationCall run,
          .getSpecificCall path (midTimestamp s e) (metadataOf run pn per v)],
        uncaught := none } := by
  unfold read_encoded_flags
  rw [if_neg (by omega), hd, hg]

/-- Trace of the null-result branch (lines 35-38). -/
theorem read_null_result (store : Store) (run : Int) (pn per : String) (v : Int)
    (path : String) (s e : Nat) (hl : 0 ≤ store.loadDict)
    (hd : store.runDuration = .ok (s, e)) (hg : store.getSpecific = .ok none) :
    read_encoded_flags store run pn per v path =
      { stdout := [],
        stderr := ["Error: Unable to retrieve encoded flags for run " ++ toString run
          ++ " from CCDB."],
        calls := [.runDurationCall run,
          .getSpecificCall path (midTimestamp s e) (metadataOf run pn per v)],
        uncaught := none } := by
  unfold read_encoded_flags
  rw [if_neg (by omega), hd, hg]

/-- Trace of the success branch (lines 41-45). -/
theorem read_success (store : Store) (run : Int) (pn per : String) (v : Int)
    (path : String) (s e : Nat) (flags : List (Nat × Nat)) (hl : 0 ≤ store.loadDict)
    (hd : store.runDuration = .ok (s, e)) (hg : store.getSpecific = .ok (some flags)) :
    read_encoded_flags store run pn per v path =
      { stdout := headerLine run :: flags.map (fun p => flagLine p.1 p.2),
        stderr := [],
        calls := [.runDurationCall run,
          .getSpecificCall path (midTimestamp s e) (metadataOf run pn per v)],
        uncaught := none } := by
  unfold read_encoded_flags
  rw [if_neg (by omega), hd, hg]

/-- A `bitset<n>` rendering has exactly n characters. -/
theorem bitsetChars_length (n v : Nat) : (bitsetChars n v).length = n := by
  induction n generalizing v with
  | zero => rfl
  | succ n ih => simp [bitsetChars, ih]

/-- The `bitset<n>` rendering is the binary representation: interpreting its
characters as most-significant-first binary digits recovers the value modulo
2 ^ n. -/
theorem binVal_bitsetChars (n v : Nat) : binVal (bitsetChars n v) = v % 2 ^ n := by
  induction n generalizing v with
  | zero => simp [bitsetChars, binVal, Nat.mod_one]
  | succ n ih =>
    have h2 : v % 2 ^ (n + 1) = v % 2 ^ n + 2 ^ n * (v / 2 ^ n % 2) := by
      rw [pow_succ, Nat.mod_mul]
    rw [bitsetChars, binVal, bitsetChars_length, ih, h2]
    rcases Nat.mod_two_eq_zero_or_one (v / 2 ^ n) with h | h
    · simp [h]
    · simp [h]
      ring

/-- Every character of a `bitset` rendering is a binary digit. -/
theorem bitsetChars_mem (n v : Nat) : ∀ c ∈ bitsetChars n v, c = '0' ∨ c = '1' := by
  induction n generalizing v with
  | zero => simp [bitsetChars]
  | succ n ih =>
    intro c hc
    rw [bitsetChars] at hc
    rcases List.mem_cons.mp hc with h | h
    · subst h
      split <;> simp
    · exact ih v c h

/-- The printed bitmask string has exactly 32 characters. -/
theorem bitset32_length (v : Nat) : (bitset32 v).length = 32 := bitsetChars_length 32 v

/-! Claim theorems. -/

/-- Store whose run window is (2^63, 2^63): the uint64 sum wraps to 0, so the
computed query timestamp is 0 instead of the exact midpoint 2^63. -/
def overflowStore : Store :=
  { loadDict := 0, runDuration := .ok (2 ^ 63, 2 ^ 63), getSpecific := .ok none }

/-- C1 counterexample: for the run window (S, E) = (2^63, 2^63) the query
timestamp passed to the store is not floor((S+E)/2) = 2^63 — the uint64
addition wraps and the routine queries timestamp 0. -/
theorem C1_counterexample :
    (read_encoded_flags overflowStore 1 "apass2" "LHC24" 1 defaultCcdbPath).calls
      ≠ [.runDurationCall 1,
         .getSpecificCall defaultCcdbPath ((2 ^ 63 + 2 ^ 63) / 2)
           (metadataOf 1 "apass2" "LHC24" 1)] := by
  rw [read_null_result overflowStore 1 "apass2" "LHC24" 1 defaultCcdbPath
    (2 ^ 63) (2 ^ 63) (by norm_num [overflowStore]) rfl rfl]
  intro h
  have h2 := List.head_eq_of_cons_eq (List.tail_eq_of_cons_eq h)
  have h3 : midTimestamp (2 ^ 63) (2 ^ 63) = (2 ^ 63 + 2 ^ 63) / 2 := by
    injection h2
  rw [midTimestamp, UINT64_MOD] at h3
  norm_num at h3

/-- C1 (amended): when the uint64 sum S + E does not overflow
(S + E < 2^64), the query timestamp passed to the store lookup equals
floor((S+E)/2) exactly; in general the routine queries
floor(((S+E) mod 2^64)/2) because the addition wraps. -/
theorem C1_query_timestamp_midpoint (store : Store) (run : Int) (pn per : String)
    (v : Int) (path : String) (s e : Nat) (hl : 0 ≤ store.loadDict)
    (hd : store.runDuration = .ok (s, e)) (hof : s + e < UINT64_MOD) :
    (read_encoded_flags store run pn per v path).calls
      = [.runDurationCall run,
         .getSpecificCall path ((s + e) / 2) (metadataOf run pn per v)] := by
  have hmid : midTimestamp s e = (s + e) / 2 := by
    rw [midTimestamp, Nat.mod_eq_of_lt hof]
  cases hg : store.getSpecific with
  | error msg => rw [read_store_exn store run pn per v path s e msg hl hd hg, hmid]
  | ok ob =>
    cases ob with
    | none => rw [read_null_result store run pn per v path s e hl hd hg, hmid]
    | some flags => rw [read_success store run pn per v path s e flags hl hd hg, hmid]

/-- Store for the C1 witness: run window (10, 20), no overflow. -/
def midpointStore : Store :=
  { loadDict := 0, runDuration := .ok (10, 20), getSpecific := .ok none }

/-- C1 witness: with run window (10, 20) the queried timestamp is 15. -/
theorem C1_query_timestamp_midpoint_witness :
    (read_encoded_flags midpointStore 7 "apass2" "LHC24" 2 defaultCcdbPath).calls
      = [.runDurationCall 7,
         .getSpecificCall defaultCcdbPath ((10 + 20) / 2)
           (metadataOf 7 "apass2" "LHC24" 2)] :=
  C1_query_timestamp_midpoint midpointStore 7 "apass2" "LHC24" 2 defaultCcdbPath 10 20
    (by norm_num [midpointStore]) rfl (by norm_num [UINT64_MOD])

/-- C2: on a successful retrieval stdout is the header followed by exactly one
line per (timestamp, bitmask) pair, in mapping order; each line consists of the
timestamp's decimal value, the 32-character zero-padded binary rendering of the
bitmask, and the bitmask's decimal value; the binary string has exactly 32
characters and interpreting it as binary digits recovers the bitmask. -/
theorem C2_flag_line_format (store : Store) (run : Int) (pn per : String) (v : Int)
    (path : String) (s e : Nat) (flags : List (Nat × Nat))
    (hl : 0 ≤ store.loadDict) (hd : store.runDuration = .ok (s, e))
    (hg : store.getSpecific = .ok (some flags)) (hval : ∀ p ∈ flags, p.2 < 2 ^ 32) :
    (read_encoded_flags store run pn per v path).stdout
        = headerLine run :: flags.map (fun p => flagLine p.1 p.2)
      ∧ ∀ p ∈ flags,
          flagLine p.1 p.2
              = "  Timestamp: " ++ toString p.1 ++ ", Bitmask: " ++ bitset32 p.2
                  ++ " (" ++ toString p.2 ++ ")"
            ∧ (bitset32 p.2).length = 32
            ∧ binVal (bitsetChars 32 p.2) = p.2 := by
  constructor
  · rw [read_success store run pn per v path s e flags hl hd hg]
  · intro p hp
    refine ⟨rfl, bitset32_length p.2, ?_⟩
    rw [binVal_bitsetChars]
    exact Nat.mod_eq_of_lt (hval p hp)

/-- Store for the C2 witness: one flag entry (timestamp 5, bitmask 5). -/
def flagStore : Store :=
  { loadDict := 0, runDuration := .ok (0, 2), getSpecific := .ok (some [(5, 5)]) }

/-- C2 witness: the single entry (5, 5) yields the header plus one formatted
line whose binary field has 32 characters and denotes 5. -/
theorem C2_flag_line_format_witness :
    (read_encoded_flags flagStore 42 "apass2" "LHC24" 3 defaultCcdbPath).stdout
        = headerLine 42 :: [((5 : Nat), (5 : Nat))].map (fun p => flagLine p.1 p.2)
      ∧ ∀ p ∈ [((5 : Nat), (5 : Nat))],
          flagLine p.1 p.2
              = "  Timestamp: " ++ toString p.1 ++ ", Bitmask: " ++ bitset32 p.2
                  ++ " (" ++ toString p.2 ++ ")"
            ∧ (bitset32 p.2).length = 32
            ∧ binVal (bitsetChars 32 p.2) = p.2 :=
  C2_flag_line_format flagStore 42 "apass2" "LHC24" 3 defaultCcdbPath 0 2 [(5, 5)]
    (by norm_num [flagStore]) rfl rfl (by decide)

/-- C3: whenever the lookup is reached, the metadata filter passed to it is
exactly the four-key map {passName, periodName, run, version}, the integer
inputs converted to decimal strings and the string inputs kept verbatim. -/
theorem C3_metadata_filter (store : Store) (run : Int) (pn per : String) (v : Int)
    (path : String) (s e : Nat) (hl : 0 ≤ store.loadDict)
    (hd : store.runDuration = .ok (s, e)) :
    ∃ ts, (read_encoded_flags store run pn per v path).calls
        = [.runDurationCall run, .getSpecificCall path ts (metadataOf run pn per v)]
      ∧ metadataOf run pn per v
        = [("passName", pn), ("periodName", per),
           ("run", toString run), ("version", toString v)] := by
  refine ⟨midTimestamp s e, ?_, metadataOf_eq run pn per v⟩
  cases hg : store.getSpecific with
  | error msg => rw [read_store_exn store run pn per v path s e msg hl hd hg]
  | ok ob =>
    cases ob with
    | none => rw [read_null_result store run pn per v path s e hl hd hg]
    | some flags => rw [read_success store run pn per v path s e flags hl hd hg]

/-- Store for the C3 witness. -/
def metadataStore : Store :=
  { loadDict := 0, runDuration := .ok (1, 3), getSpecific := .ok none }

/-- C3 witness: for run 42, pass "apass2", period "LHC24", version 7 the filter
is exactly the four expected key/value pairs. -/
theorem C3_metadata_filter_witness :
    ∃ ts, (read_encoded_flags metadataStore 42 "apass2" "LHC24" 7 defaultCcdbPath).calls
        = [.runDurationCall 42,
           .getSpecificCall defaultCcdbPath ts (metadataOf 42 "apass2" "LHC24" 7)]
      ∧ metadataOf 42 "apass2" "LHC24" 7
        = [("passName", "apass2"), ("periodName", "LHC24"),
           ("run", toString (42 : Int)), ("version", toString (7 : Int))] :=
  C3_metadata_filter metadataStore 42 "apass2" "LHC24" 7 defaultCcdbPath 1 3
    (by norm_num [metadataStore]) rfl

/-- C4: when the store lookup returns a null result, exactly one error line is
produced, it mentions the run number, no stdout (flag) line is printed, and the
routine returns normally (no uncaught exception). -/
theorem C4_null_result_reported (store : Store) (run : Int) (pn per : String)
    (v : Int) (path : String) (s e : Nat) (hl : 0 ≤ store.loadDict)
    (hd : store.runDuration = .ok (s, e)) (hg : store.getSpecific = .ok none) :
    (read_encoded_flags store run pn per v path).stderr
        = ["Error: Unable to retrieve encoded flags for run " ++ toString run
            ++ " from CCDB."]
      ∧ (read_encoded_flags store run pn per v path).stdout = []
      ∧ (read_encoded_flags store run pn per v path).uncaught = none := by
  rw [read_null_result store run pn per v path s e hl hd hg]
  exact ⟨rfl, rfl, rfl⟩

/-- Store for the C4 witness: lookup misses. -/
def missStore : Store :=
  { loadDict := 0, runDuration := .ok (4, 8), getSpecific := .ok none }

/-- C4 witness: a miss for run 42 produces the single error line naming run 42
and nothing on stdout. -/
theorem C4_null_result_reported_witness :
    (read_encoded_flags missStore 42 "apass2" "LHC24" 1 defaultCcdbPath).stderr
        = ["Error: Unable to retrieve encoded flags for run " ++ toString (42 : Int)
            ++ " from CCDB."]
      ∧ (read_encoded_flags missStore 42 "apass2" "LHC24" 1 defaultCcdbPath).stdout = []
      ∧ (read_encoded_flags missStore 42 "apass2" "LHC24" 1 defaultCcdbPath).uncaught
        = none :=
  C4_null_result_reported missStore 42 "apass2" "LHC24" 1 defaultCcdbPath 4 8
    (by norm_num [missStore]) rfl rfl

/-- C5: when the retrieval call raises, the exception is caught; exactly one
error line containing the exception's message is produced, no flag line is
printed, and the routine returns normally instead of re-raising. -/
theorem C5_store_exception_swallowed (store : Store) (run : Int) (pn per : String)
    (v : Int) (path : String) (s e : Nat) (msg : String) (hl : 0 ≤ store.loadDict)
    (hd : store.runDuration = .ok (s, e)) (hg : store.getSpecific = .error msg) :
    (read_encoded_flags store run pn per v path).stderr
        = ["Error: Exception occurred while retrieving CCDB object: " ++ msg]
      ∧ (read_encoded_flags store run pn per v path).stdout = []
      ∧ (read_encoded_flags store run pn per v path).uncaught = none := by
  rw [read_store_exn store run pn per v path s e msg hl hd hg]
  exact ⟨rfl, rfl, rfl⟩

/-- Store for the C5 witness: retrieval raises with message "timeout". -/
def raisingStore : Store :=
  { loadDict := 0, runDuration := .ok (4, 8), getSpecific := .error "timeout" }

/-- C5 witness: the raised message "timeout" appears in the single error line
and the routine returns normally. -/
theorem C5_store_exception_swallowed_witness :
    (read_encoded_flags raisingStore 3 "apass2" "LHC24" 1 defaultCcdbPath).stderr
        = ["Error: Exception occurred while retrieving CCDB object: " ++ "timeout"]
      ∧ (read_encoded_flags raisingStore 3 "apass2" "LHC24" 1 defaultCcdbPath).stdout = []
      ∧ (read_encoded_flags raisingStore 3 "apass2" "LHC24" 1 defaultCcdbPath).uncaught
        = none :=
  C5_store_exception_swallowed raisingStore 3 "apass2" "LHC24" 1 defaultCcdbPath 4 8
    "timeout" (by norm_num [raisingStore]) rfl rfl

/-- C6: when loading dict_ccdb.so fails (negative return value), exactly one
error line is produced, nothing is printed on stdout, no store call at all is
made (not even getRunDuration), and the routine returns normally. -/
theorem C6_load_failure_short_circuits (store : Store) (run : Int) (pn per : String)
    (v : Int) (path : String) (h : store.loadDict < 0) :
    (read_encoded_flags store run pn per v path).stderr
        = ["Error: Failed to load dict_ccdb.so"]
      ∧ (read_encoded_flags store run pn per v path).stdout = []
      ∧ (read_encoded_flags store run pn per v path).calls = []
      ∧ (read_encoded_flags store run pn per v path).uncaught = none := by
  rw [read_load_failure store run pn per v path h]
  exact ⟨rfl, rfl, rfl, rfl⟩

/-- Store for the C6 witness: the dictionary load returns -1. -/
def badDictStore : Store :=
  { loadDict := -1, runDuration := .ok (4, 8), getSpecific := .ok none }

/-- C6 witness: with load result -1, one error line, empty stdout, and an empty
store-call log. -/
theorem C6_load_failure_short_circuits_witness :
    (read_encoded_flags badDictStore 5 "apass2" "LHC24" 1 defaultCcdbPath).stderr
        = ["Error: Failed to load dict_ccdb.so"]
      ∧ (read_encoded_flags badDictStore 5 "apass2" "LHC24" 1 defaultCcdbPath).stdout = []
      ∧ (read_encoded_flags badDictStore 5 "apass2" "LHC24" 1 defaultCcdbPath).calls = []
      ∧ (read_encoded_flags badDictStore 5 "apass2" "LHC24" 1 defaultCcdbPath).uncaught
        = none :=
  C6_load_failure_short_circuits badDictStore 5 "apass2" "LHC24" 1 defaultCcdbPath
    (by norm_num [badDictStore])

/-- C7: on a successful retrieval, the flag lines are printed by iterating the
returned mapping in order; under the std::map invariant that the stored keys
are strictly increasing, the sequence of printed timestamps is strictly
ascending. -/
theorem C7_ascending_timestamps (store : Store) (run : Int) (pn per : String)
    (v : Int) (path : String) (s e : Nat) (flags : List (Nat × Nat))
    (hl : 0 ≤ store.loadDict) (hd : store.runDuration = .ok (s, e))
    (hg : store.getSpecific = .ok (some flags))
    (hsorted : flags.Pairwise (fun p q => p.1 < q.1)) :
    (read_encoded_flags store run pn per v path).stdout
        = headerLine run :: flags.map (fun p => flagLine p.1 p.2)
      ∧ (flags.map Prod.fst).Pairwise (· < ·) := by
  constructor
  · rw [read_success store run pn per v path s e flags hl hd hg]
  · exact List.pairwise_map.mpr hsorted

/-- Store for the C7 witness: two entries with ascending timestamps. -/
def sortedStore : Store :=
  { loadDict := 0, runDuration := .ok (0, 2),
    getSpecific := .ok (some [(1, 2), (3, 4)]) }

/-- C7 witness: the entries (1, 2) and (3, 4) print in that order with
timestamps 1 < 3. -/
theorem C7_ascending_timestamps_witness :
    (read_encoded_flags sortedStore 9 "apass2" "LHC24" 1 defaultCcdbPath).stdout
        = headerLine 9
            :: [((1 : Nat), (2 : Nat)), (3, 4)].map (fun p => flagLine p.1 p.2)
      ∧ ([((1 : Nat), (2 : Nat)), (3, 4)].map Prod.fst).Pairwise (· < ·) :=
  C7_ascending_timestamps sortedStore 9 "apass2" "LHC24" 1 defaultCcdbPath 0 2
    [(1, 2), (3, 4)] (by norm_num [sortedStore]) rfl rfl (by decide)

/-- C8: getRunDuration sits outside the try block, so an exception it raises
propagates uncaught: no error line is printed, nothing reaches stdout, and the
routine does not return normally. -/
theorem C8_duration_exception_propagates (store : Store) (run : Int)
    (pn per : String) (v : Int) (path msg : String) (hl : 0 ≤ store.loadDict)
    (hd : store.runDuration = .error msg) :
    (read_encoded_flags store run pn per v path).uncaught = some msg
      ∧ (read_encoded_flags store run pn per v path).stderr = []
      ∧ (read_encoded_flags store run pn per v path).stdout = [] := by
  rw [read_duration_exn store run pn per v path msg hl hd]
  exact ⟨rfl, rfl, rfl⟩

/-- Store for the C8 witness: getRunDuration raises "no GRP". -/
def badDurationStore : Store :=
  { loadDict := 0, runDuration := .error "no GRP", getSpecific := .ok none }

/-- C8 witness: the "no GRP" exception escapes uncaught with nothing printed. -/
theorem C8_duration_exception_propagates_witness :
    (read_encoded_flags badDurationStore 11 "apass2" "LHC24" 1 defaultCcdbPath).uncaught
        = some "no GRP"
      ∧ (read_encoded_flags badDurationStore 11 "apass2" "LHC24" 1 defaultCcdbPath).stderr
        = []
      ∧ (read_encoded_flags badDurationStore 11 "apass2" "LHC24" 1 defaultCcdbPath).stdout
        = [] :=
  C8_duration_exception_propagates badDurationStore 11 "apass2" "LHC24" 1
    defaultCcdbPath "no GRP" (by norm_num [badDurationStore]) rfl

/-- C9: a successfully retrieved but empty mapping is treated as success: the
header naming the run is printed on stdout, zero flag lines follow, stderr is
empty, and the routine returns normally. -/
theorem C9_empty_map_is_success (store : Store) (run : Int) (pn per : String)
    (v : Int) (path : String) (s e : Nat) (hl : 0 ≤ store.loadDict)
    (hd : store.runDuration = .ok (s, e))
    (hg : store.getSpecific = .ok (some [])) :
    (read_encoded_flags store run pn per v path).stdout = [headerLine run]
      ∧ (read_encoded_flags store run pn per v path).stderr = []
      ∧ (read_encoded_flags store run pn per v path).uncaught = none := by
  rw [read_success store run pn per v path s e [] hl hd hg]
  exact ⟨rfl, rfl, rfl⟩

/-- Store for the C9 witness: the lookup returns an empty mapping. -/
def emptyMapStore : Store :=
  { loadDict := 0, runDuration := .ok (0, 2), getSpecific := .ok (some []) }

/-- C9 witness: the empty mapping prints only the header for run 13. -/
theorem C9_empty_map_is_success_witness :
    (read_encoded_flags emptyMapStore 13 "apass2" "LHC24" 1 defaultCcdbPath).stdout
        = [headerLine 13]
      ∧ (read_encoded_flags emptyMapStore 13 "apass2" "LHC24" 1 defaultCcdbPath).stderr
        = []
      ∧ (read_encoded_flags emptyMapStore 13 "apass2" "LHC24" 1 defaultCcdbPath).uncaught
        = none :=
  C9_empty_map_is_success emptyMapStore 13 "apass2" "LHC24" 1 defaultCcdbPath 0 2
    (by norm_num [emptyMapStore]) rfl rfl

/-- C10: the routine validates none of its inputs: the printed output and the
exception behaviour are identical for every choice of passName, periodName and
versionNumber (negative versions and empty strings included), and the values
are placed into the metadata filter unchanged (decimal string for the version,
verbatim for the strings) without rejection or warning. -/
theorem C10_no_input_validation (store : Store) (run : Int) (path : String)
    (pn per pn₂ per₂ : String) (v v₂ : Int) :
    ((read_encoded_flags store run pn per v path).stdout
        = (read_encoded_flags store run pn₂ per₂ v₂ path).stdout
      ∧ (read_encoded_flags store run pn per v path).stderr
        = (read_encoded_flags store run pn₂ per₂ v₂ path).stderr
      ∧ (read_encoded_flags store run pn per v path).uncaught
        = (read_encoded_flags store run pn₂ per₂ v₂ path).uncaught)
    ∧ metadataOf run pn per v
      = [("passName", pn), ("periodName", per),
         ("run", toString run), ("version", toString v)] := by
  refine ⟨?_, metadataOf_eq run pn per v⟩
  by_cases h : store.loadDict < 0
  · rw [read_load_failure store run pn per v path h,
      read_load_failure store run pn₂ per₂ v₂ path h]
    exact ⟨rfl, rfl, rfl⟩
  · have hl : 0 ≤ store.loadDict := by omega
    cases hd : store.runDuration with
    | error msg =>
      rw [read_duration_exn store run pn per v path msg hl hd,
        read_duration_exn store run pn₂ per₂ v₂ path msg hl hd]
      exact ⟨rfl, rfl, rfl⟩
    | ok soreor =>
      obtain ⟨s, e⟩ := soreor
      cases hg : store.getSpecific with
      | error msg =>
        rw [read_store_exn store run pn per v path s e msg hl hd hg,
          read_store_exn store run pn₂ per₂ v₂ path s e msg hl hd hg]
        exact ⟨rfl, rfl, rfl⟩
      | ok ob =>
        cases ob with
        | none =>
          rw [read_null_result store run pn per v path s e hl hd hg,
            read_null_result store run pn₂ per₂ v₂ path s e hl hd hg]
          exact ⟨rfl, rfl, rfl⟩
        | some flags =>
          rw [read_success store run pn per v path s e flags hl hd hg,
            read_success store run pn₂ per₂ v₂ path s e flags hl hd hg]
          exact ⟨rfl, rfl, rfl⟩

end RCT
